import Mathlib

/-!
Shallow embedding of `src/js/backend/BlockBook.js` (the BackendCoordinator of
the unchained-capital/connect repository) and proofs about its claims.

The coordinator owns one backend connection and one discovery engine, keeps a
single mutable `error` field, and exposes gated operations.  We embed its
state as an explicit record, backend I/O as an oracle record of
`Except`-valued responses, and the event-emitter wiring (the handlers
attached to `blockchain.errors.values`) as an explicit handler list.
External collaborators (hd-wallet, bitcoinjs) are modelled through the
interface the coordinator uses, as the spec describes them.
-/

namespace BlockBook

/-- Errors are carried as plain strings (JS `Error` messages). -/
abbrev Err := String

/-- An account snapshot (`AccountInfo` from hd-wallet) is opaque to the
coordinator; we model it as an opaque payload string. -/
abbrev AccountInfo := String

/-- Network descriptor (`CoinInfo` from `src/data/CoinInfo`), restricted to the
fields the coordinator reads: `segwit`, `cashAddrPrefix` (here `cashAddr`),
`network`, `zcash`. -/
structure CoinInfo where
  name : String
  segwit : Bool
  cashAddr : Option String
  network : String
  zcash : Bool
deriving DecidableEq

/-- Modelled from the spec: `ERROR.BACKEND_NO_URL` from `src/constants/errors`
(not present under src/), the `ConstructionError` thrown for an empty
endpoint list. -/
def BACKEND_NO_URL : Err := "backend_no_url"

/-- JS truthiness of an optional string: `!!x` is `false` for
`undefined`/`null` and for the empty string. Embeds the
`!!(coinInfo.cashAddrPrefix)` expressions at lines 103 and 128. -/
def jsTruthyStr : Option String → Bool
  | none => false
  | some s => !(s == "")

/-- A handler attached to the backend error channel
(`blockchain.errors.values.attach`): the constructor attaches `_setError`
(line 63); each `loadAccountInfo` session attaches a disposer for its
discovery (lines 110-112); each `monitorAccountActivity` stream attaches a
disposer for its stream (lines 130-132). -/
inductive Handler where
  | setError
  | sessionDispose (sid : Nat)
  | streamDispose (sid : Nat)
deriving DecidableEq

/-- Objects the constructor creates after the URL check: the fastxpub worker,
the `BitcoreBlockchain` connection and the `WorkerDiscovery` engine
(lines 55-69). -/
inductive Created where
  | fastXpubWorker
  | bitcoreBlockchain (urls : List String)
  | workerDiscovery
deriving DecidableEq

/-- The coordinator's mutable state: the backend URLs, the sticky `error`
field, the handlers attached to the backend error channel, the open progress
stream attachments, a counter naming discovery sessions/streams, and the
`blockchain.zcash` flag set by `loadCoinInfo` (none before the first call). -/
structure CoordState where
  urls : List String
  error : Option Err
  errorHandlers : List Handler
  progressStreams : List Nat
  nextSession : Nat
  zcash : Option Bool
deriving DecidableEq

/-- Constructor options (`Options`, lines 36-39). -/
structure Options where
  urls : List String
  coinInfo : CoinInfo
deriving DecidableEq

/-- The constructor (lines 48-70): throws `BACKEND_NO_URL` when
`options.urls.length < 1`; otherwise creates the worker, blockchain and
discovery objects and attaches `_setError` to the error channel.  The second
component records which collaborator objects were created. -/
def constructBlockBook (options : Options) : Except Err CoordState × List Created :=
  if options.urls.length < 1 then
    (.error BACKEND_NO_URL, [])
  else
    (.ok { urls := options.urls
           error := none
           errorHandlers := [.setError]
           progressStreams := []
           nextSession := 0
           zcash := none },
     [.fastXpubWorker, .bitcoreBlockchain options.urls, .workerDiscovery])

/-- Embeds `_setError` (lines 72-74): unconditionally assigns the delivered error to
the `error` field. -/
def _setError (st : CoordState) (e : Err) : CoordState :=
  { st with error := some e }

/-- Effect of one attached handler on the coordinator state when the error
channel delivers `e`: `_setError` stores the error; the session/stream
disposers act on their own discovery/stream objects (modelled separately by
`sessionStep`) and do not touch the coordinator record. -/
def fireHandler (st : CoordState) (h : Handler) (e : Err) : CoordState :=
  match h with
  | .setError => _setError st e
  | .sessionDispose _ => st
  | .streamDispose _ => st

/-- Delivery of one error on the backend error channel: every attached
handler fires, in attachment order. -/
def deliverError (st : CoordState) (e : Err) : CoordState :=
  st.errorHandlers.foldl (fun s h => fireHandler s h e) st

/-- Raw transaction as returned by `blockchain.lookupTransaction`
(a `hex` string plus the network-specific `zcash` flag, line 147). -/
structure RawTx where
  hex : String
  zcash : Bool
deriving DecidableEq

/-- Sync status returned by `blockchain.lookupSyncStatus`; the source reads
only its `height` field (line 152). -/
structure SyncStatus where
  height : Nat
deriving DecidableEq

/-- Structured transaction produced by
`BitcoinJsTransaction.fromHex(tx.hex, tx.zcash)`; the external parser is
modelled as an opaque embedding of its inputs. -/
structure BitcoinJsTransaction where
  hex : String
  zcash : Bool
deriving DecidableEq

/-- Embeds `BitcoinJsTransaction.fromHex` (external bitcoinjs-lib-zcash). -/
def BitcoinJsTransaction.fromHex (hex : String) (z : Bool) : BitcoinJsTransaction :=
  ⟨hex, z⟩

/-- The backend connection's request surface, as an oracle of responses. -/
structure Backend where
  getInfo : Except Err String
  lookupBlockHash0 : Except Err String
  lookupTransaction : String → Except Err RawTx
  lookupSyncStatus : Except Err SyncStatus
  sendTransaction : String → Except Err String

/-- One backend interaction performed by an operation. -/
inductive BackendCall where
  | getInfo
  | lookupBlockHash (height : Nat)
  | lookupTransaction (id : String)
  | lookupSyncStatus
  | sendTransaction (hex : String)
deriving DecidableEq

/-- Modelled from the spec: `getCoinInfoByHash` from `src/data/CoinInfo` (not
present under src/): matches the observed genesis-block hash against the
known-network table, returning the matching descriptor or nothing. -/
def getCoinInfoByHash (table : List (String × CoinInfo)) (hash : String) : Option CoinInfo :=
  (table.find? (fun p => p.1 == hash)).map Prod.snd

/-- Embeds `loadCoinInfo` (lines 76-90): awaits the socket, sends `getInfo`; when no
descriptor is supplied, looks up the genesis-block hash and resolves the
descriptor through the known-network table, throwing
`Failed to load coinInfo <hash>` when no entry matches; finally sets
`blockchain.zcash` from the descriptor.  Note there is no fatal-error guard
at entry. -/
def loadCoinInfo (st : CoordState) (b : Backend) (table : List (String × CoinInfo))
    (coinInfo : Option CoinInfo) : Except Err CoordState × List BackendCall :=
  match b.getInfo with
  | .error e => (.error e, [.getInfo])
  | .ok _networkInfo =>
    match coinInfo with
    | some ci => (.ok { st with zcash := some ci.zcash }, [.getInfo])
    | none =>
      match b.lookupBlockHash0 with
      | .error e => (.error e, [.getInfo, .lookupBlockHash 0])
      | .ok hash =>
        match getCoinInfoByHash table hash with
        | none => (.error ("Failed to load coinInfo " ++ hash), [.getInfo, .lookupBlockHash 0])
        | some ci => (.ok { st with zcash := some ci.zcash }, [.getInfo, .lookupBlockHash 0])

/-- Parameters passed to `discovery.discoverAccount` (line 103). -/
structure DiscoverParams where
  data : Option AccountInfo
  xpub : String
  network : String
  segwit : String
  cashAddr : Bool
deriving DecidableEq

/-- Parameters passed to `discovery.monitorAccountActivity` (line 128). -/
structure MonitorParams where
  data : AccountInfo
  xpub : String
  network : String
  segwit : String
  cashAddr : Bool
deriving DecidableEq

/-- The synchronous start of `loadAccountInfo` (lines 92-112): checks the
fatal-error guard, derives the segwit mode and special-prefix flag from the
descriptor, starts the discovery session, attaches the progress relay to the
session's stream, and attaches a disposer for this session to the backend
error channel.  Returns the updated state and the engine parameters. -/
def loadAccountInfoStart (st : CoordState) (xpub : String) (data : Option AccountInfo)
    (ci : CoinInfo) : Except Err (CoordState × DiscoverParams) :=
  match st.error with
  | some e => .error e
  | none =>
    let segwit_s : String := if ci.segwit then "p2sh" else "off"
    .ok ({ st with
            errorHandlers := st.errorHandlers ++ [.sessionDispose st.nextSession]
            progressStreams := st.progressStreams ++ [st.nextSession]
            nextSession := st.nextSession + 1 },
         ⟨data, xpub, ci.network, segwit_s, jsTruthyStr ci.cashAddr⟩)

/-- The end of a `loadAccountInfo` session (lines 114-117): after
`discovery.ending` settles, the source calls `discovery.stream.dispose()`,
removing the progress attachment; no statement detaches the session's
handler from the backend error channel. -/
def loadAccountInfoFinish (st : CoordState) (sid : Nat) : CoordState :=
  { st with progressStreams := st.progressStreams.filter (fun x => x ≠ sid) }

/-- Embeds `monitorAccountActivity` (lines 120-134): checks the fatal-error guard,
derives the same segwit/prefix parameters, starts the activity stream and
attaches a disposer for it to the backend error channel. -/
def monitorAccountActivity (st : CoordState) (xpub : String) (data : AccountInfo)
    (ci : CoinInfo) : Except Err (CoordState × MonitorParams) :=
  match st.error with
  | some e => .error e
  | none =>
    let segwit_s : String := if ci.segwit then "p2sh" else "off"
    .ok ({ st with
            errorHandlers := st.errorHandlers ++ [.streamDispose st.nextSession]
            nextSession := st.nextSession + 1 },
         ⟨data, xpub, ci.network, segwit_s, jsTruthyStr ci.cashAddr⟩)

/-- Embeds `loadTransaction` (lines 144-148): fatal-error guard, then one backend
lookup, then deserialization via `BitcoinJsTransaction.fromHex`. -/
def loadTransaction (st : CoordState) (b : Backend) (id : String) :
    Except Err BitcoinJsTransaction × List BackendCall :=
  match st.error with
  | some e => (.error e, [])
  | none =>
    match b.lookupTransaction id with
    | .error e => (.error e, [.lookupTransaction id])
    | .ok tx => (.ok (BitcoinJsTransaction.fromHex tx.hex tx.zcash), [.lookupTransaction id])

/-- Embeds `Promise.all` over already-started fetches: every fetch's backend calls
happen; the aggregate resolves to the list of values when all succeed and
rejects with a member's rejection when any fails. -/
def promiseAll : List (Except Err BitcoinJsTransaction × List BackendCall) →
    Except Err (List BitcoinJsTransaction) × List BackendCall
  | [] => (.ok [], [])
  | (r, cs) :: rest =>
    let (rs, css) := promiseAll rest
    match r, rs with
    | .ok v, .ok vs => (.ok (v :: vs), cs ++ css)
    | .error e, _ => (.error e, cs ++ css)
    | .ok _, .error e => (.error e, cs ++ css)

/-- Embeds `loadTransactions` (lines 136-142): fatal-error guard, then
`Promise.all(txs.map(id => this.loadTransaction(id)))`. -/
def loadTransactions (st : CoordState) (b : Backend) (txs : List String) :
    Except Err (List BitcoinJsTransaction) × List BackendCall :=
  match st.error with
  | some e => (.error e, [])
  | none => promiseAll (txs.map (fun id => loadTransaction st b id))

/-- Embeds `loadCurrentHeight` (lines 150-154): fatal-error guard, then returns the
`height` field of the sync status. -/
def loadCurrentHeight (st : CoordState) (b : Backend) : Except Err Nat × List BackendCall :=
  match st.error with
  | some e => (.error e, [])
  | none =>
    match b.lookupSyncStatus with
    | .error e => (.error e, [.lookupSyncStatus])
    | .ok s => (.ok s.height, [.lookupSyncStatus])

/-- A hex digit for `Buffer.toString` (lowercase, as Node produces). -/
def hexDigit (n : Nat) : Char :=
  if n < 10 then Char.ofNat (48 + n) else Char.ofNat (87 + n)

/-- One byte rendered as two hex digits. -/
def byteToHex (b : Nat) : String :=
  String.mk [hexDigit ((b / 16) % 16), hexDigit (b % 16)]

/-- Embeds `txBytes.toString("hex")`: Node `Buffer` hex encoding. -/
def bufferToHex (buf : List Nat) : String :=
  String.join (buf.map byteToHex)

/-- Embeds `sendTransaction` (lines 156-159): fatal-error guard, then broadcasts the
hex encoding of the byte buffer. -/
def sendTransaction (st : CoordState) (b : Backend) (txBytes : List Nat) :
    Except Err String × List BackendCall :=
  match st.error with
  | some e => (.error e, [])
  | none =>
    match b.sendTransaction (bufferToHex txBytes) with
    | .error e => (.error e, [.sendTransaction (bufferToHex txBytes)])
    | .ok txid => (.ok txid, [.sendTransaction (bufferToHex txBytes)])

/-- Embeds `sendTransactionHex` (lines 161-164): fatal-error guard, then broadcasts
the given hex string. -/
def sendTransactionHex (st : CoordState) (b : Backend) (txHex : String) :
    Except Err String × List BackendCall :=
  match st.error with
  | some e => (.error e, [])
  | none =>
    match b.sendTransaction txHex with
    | .error e => (.error e, [.sendTransaction txHex])
    | .ok txid => (.ok txid, [.sendTransaction txHex])

/-- Outcome of a discovery session: `discovery.ending` resolves with the
account info, or rejects with the disposal reason. -/
inductive SessionOutcome where
  | success (info : AccountInfo)
  | failure (e : Err)
deriving DecidableEq

/-- Events a `loadAccountInfo` session can receive while open: the engine
resolves `discovery.ending`; the backend error channel delivers an error (the
handler attached at lines 110-112 then calls `discovery.dispose(e)`); the
caller invokes the disposer registered at line 104
(`discovery.dispose(new Error("Interrupted by user"))`). -/
inductive SessionEvent where
  | complete (info : AccountInfo)
  | backendError (e : Err)
  | userDispose
deriving DecidableEq

/-- Whether an event is the engine's own completion. -/
def SessionEvent.isComplete : SessionEvent → Bool
  | .complete _ => true
  | _ => false

/-- One step of the session lifecycle.  Per the engine's session contract
(spec interface of hd-wallet): disposal of an open session rejects its
`ending` with the given reason; disposal of an already-settled session, and
completion after a settle, leave the outcome unchanged (the terminal state is
absorbing, so the handler of an ended session cannot change anything). -/
def sessionStep : Option SessionOutcome → SessionEvent → Option SessionOutcome
  | none, .complete info => some (.success info)
  | none, .backendError e => some (.failure e)
  | none, .userDispose => some (.failure "Interrupted by user")
  | some o, _ => some o

/-- Outcome of a session after a sequence of delivered events. -/
def runSession (events : List SessionEvent) : Option SessionOutcome :=
  events.foldl sessionStep none

/-- Whether an `Except` value is a success. -/
def exceptOk {α : Type} : Except Err α → Bool
  | .ok _ => true
  | .error _ => false

/-! ### Concrete fixtures -/

/-- Coordinator state right after a successful construction with one URL. -/
def stOk : CoordState :=
  { urls := ["https://backend"], error := none, errorHandlers := [.setError]
    progressStreams := [], nextSession := 0, zcash := none }

/-- Coordinator state after the error channel has delivered "boom". -/
def stErr : CoordState := { stOk with error := some "boom" }

/-- A segwit-capable descriptor without the alternate address scheme. -/
def ciBtc : CoinInfo :=
  { name := "Bitcoin", segwit := true, cashAddr := none, network := "bitcoin", zcash := false }

/-- A non-segwit descriptor using the alternate address-encoding scheme. -/
def ciBch : CoinInfo :=
  { name := "Bcash", segwit := false, cashAddr := some "bitcoincash", network := "bcash"
    zcash := false }

/-- A descriptor whose zcash flag differs from the others. -/
def ciZec : CoinInfo :=
  { name := "Zcash", segwit := false, cashAddr := none, network := "zcash", zcash := true }

/-- A backend oracle that answers every request, except that the transaction
lookup for id "bad" fails. -/
def bOk : Backend :=
  { getInfo := .ok "info"
    lookupBlockHash0 := .ok "genesis"
    lookupTransaction := fun id =>
      if id == "bad" then .error "tx lookup failed" else .ok { hex := id, zcash := false }
    lookupSyncStatus := .ok { height := 123 }
    sendTransaction := fun h => .ok ("txid:" ++ h) }

/-- Coordinator state after `loadAccountInfoStart` ran once on `stOk`. -/
def stAfterStart : CoordState :=
  { urls := ["https://backend"], error := none
    errorHandlers := [.setError, .sessionDispose 0]
    progressStreams := [0], nextSession := 1, zcash := none }

/-! ### Error-channel lemmas -/

theorem fireHandler_handlers (st : CoordState) (h : Handler) (e : Err) :
    (fireHandler st h e).errorHandlers = st.errorHandlers := by
  cases h <;> rfl

theorem fireHandler_error_some (st : CoordState) (h : Handler) (e : Err)
    (hs : st.error = some e) : (fireHandler st h e).error = some e := by
  cases h <;> simp [fireHandler, _setError, hs]

theorem fireHandler_isSome (st : CoordState) (h : Handler) (e : Err)
    (hs : st.error.isSome = true) : (fireHandler st h e).error.isSome = true := by
  cases h with
  | setError => simp [fireHandler, _setError]
  | sessionDispose sid => exact hs
  | streamDispose sid => exact hs

theorem foldl_fire_error_some (hs : List Handler) (st : CoordState) (e : Err)
    (h : st.error = some e) :
    (hs.foldl (fun s h => fireHandler s h e) st).error = some e := by
  induction hs generalizing st with
  | nil => exact h
  | cons hd tl ih => exact ih _ (fireHandler_error_some st hd e h)

theorem foldl_fire_mem_setError (hs : List Handler) (st : CoordState) (e : Err)
    (hmem : Handler.setError ∈ hs) :
    (hs.foldl (fun s h => fireHandler s h e) st).error = some e := by
  induction hs generalizing st with
  | nil => cases hmem
  | cons hd tl ih =>
    rcases List.mem_cons.mp hmem with h1 | h2
    · subst h1
      exact foldl_fire_error_some tl _ e rfl
    · exact ih _ h2

theorem foldl_fire_handlers (hs : List Handler) (st : CoordState) (e : Err) :
    (hs.foldl (fun s h => fireHandler s h e) st).errorHandlers = st.errorHandlers := by
  induction hs generalizing st with
  | nil => rfl
  | cons hd tl ih => rw [List.foldl_cons, ih, fireHandler_handlers]

theorem foldl_fire_isSome (hs : List Handler) (st : CoordState) (e : Err)
    (h : st.error.isSome = true) :
    ((hs.foldl (fun s h => fireHandler s h e) st).error).isSome = true := by
  induction hs generalizing st with
  | nil => exact h
  | cons hd tl ih => exact ih _ (fireHandler_isSome st hd e h)

theorem deliverError_handlers (st : CoordState) (e : Err) :
    (deliverError st e).errorHandlers = st.errorHandlers :=
  foldl_fire_handlers st.errorHandlers st e

theorem deliverError_error_of_mem (st : CoordState) (e : Err)
    (hmem : Handler.setError ∈ st.errorHandlers) :
    (deliverError st e).error = some e :=
  foldl_fire_mem_setError st.errorHandlers st e hmem

theorem deliverError_isSome (st : CoordState) (e : Err)
    (h : st.error.isSome = true) : ((deliverError st e).error).isSome = true :=
  foldl_fire_isSome st.errorHandlers st e h

theorem foldl_deliver_handlers (es : List Err) (st : CoordState) :
    ((es.foldl deliverError st)).errorHandlers = st.errorHandlers := by
  induction es generalizing st with
  | nil => rfl
  | cons e tl ih => rw [List.foldl_cons, ih, deliverError_handlers]

theorem foldl_deliver_isSome (es : List Err) (st : CoordState)
    (h : st.error.isSome = true) : ((es.foldl deliverError st).error).isSome = true := by
  induction es generalizing st with
  | nil => exact h
  | cons e tl ih => exact ih _ (deliverError_isSome st e h)

/-! ### Claim theorems -/

/-- Claim C1 is false as stated: on a freshly constructed coordinator the
subscription routes every delivered error through `_setError`, which
overwrites the field — after delivering "e1" and then "e2" the stored field
is `some "e2"`, so the second delivery did not leave the field unchanged. -/
theorem error_field_overwritten_counterexample :
    (deliverError stOk "e1").error = some "e1" ∧
    (deliverError (deliverError stOk "e1") "e2").error = some "e2" ∧
    ¬ ((deliverError (deliverError stOk "e1") "e2").error = some "e1") := by
  refine ⟨rfl, rfl, ?_⟩
  decide

/-- Claim C1 (amended): the first error delivered by the backend error channel
sets the fatal-error field, but each subsequently delivered error overwrites
the stored field with itself (last-error-wins, not first-error-wins); the
field is never cleared — once set it remains set for the coordinator's
lifetime. -/
theorem error_field_last_wins_and_sticky (st : CoordState) (es : List Err) (e : Err)
    (hmem : Handler.setError ∈ st.errorHandlers) :
    ((es ++ [e]).foldl deliverError st).error = some e ∧
    (st.error.isSome = true → ((es.foldl deliverError st).error).isSome = true) := by
  constructor
  · rw [List.foldl_append, List.foldl_cons, List.foldl_nil]
    exact deliverError_error_of_mem _ e (by rw [foldl_deliver_handlers]; exact hmem)
  · intro h
    exact foldl_deliver_isSome es st h

theorem error_field_last_wins_and_sticky_witness :
    Handler.setError ∈ stOk.errorHandlers ∧
    ((["e1"] ++ ["e2"]).foldl deliverError stOk).error = some "e2" :=
  ⟨by decide, (error_field_last_wins_and_sticky stOk ["e1"] "e2" (by decide)).1⟩

/-- Claim C2: when the fatal-error field is set, every gated operation
(`loadAccountInfo`, `monitorAccountActivity`, `loadTransaction`,
`loadTransactions`, `loadCurrentHeight`, `sendTransaction`,
`sendTransactionHex`) fails immediately with exactly the stored error,
performing no backend interaction (no call list entry, no session or stream
started, no state change). -/
theorem gated_ops_fail_with_stored_error (st : CoordState) (e : Err)
    (h : st.error = some e) :
    (∀ xpub data ci, loadAccountInfoStart st xpub data ci = .error e) ∧
    (∀ xpub data ci, monitorAccountActivity st xpub data ci = .error e) ∧
    (∀ b id, loadTransaction st b id = (.error e, [])) ∧
    (∀ b txs, loadTransactions st b txs = (.error e, [])) ∧
    (∀ b, loadCurrentHeight st b = (.error e, [])) ∧
    (∀ b txBytes, sendTransaction st b txBytes = (.error e, [])) ∧
    (∀ b txHex, sendTransactionHex st b txHex = (.error e, [])) := by
  refine ⟨?_, ?_, ?_, ?_, ?_, ?_, ?_⟩ <;> intros <;>
    simp [loadAccountInfoStart, monitorAccountActivity, loadTransaction,
      loadTransactions, loadCurrentHeight, sendTransaction, sendTransactionHex, h]

theorem gated_ops_fail_with_stored_error_witness :
    stErr.error = some "boom" ∧
    loadTransaction stErr bOk "id1" = (.error "boom", []) ∧
    loadCurrentHeight stErr bOk = (.error "boom", []) ∧
    loadTransactions stErr bOk ["id1"] = (.error "boom", []) :=
  ⟨rfl,
   (gated_ops_fail_with_stored_error stErr "boom" rfl).2.2.1 bOk "id1",
   (gated_ops_fail_with_stored_error stErr "boom" rfl).2.2.2.2.1 bOk,
   (gated_ops_fail_with_stored_error stErr "boom" rfl).2.2.2.1 bOk ["id1"]⟩

/-- Claim C3: construction with an empty endpoint list always fails with the
construction error `BACKEND_NO_URL`, and no collaborator object (worker,
blockchain connection, discovery engine) is created — the created-objects
list is empty, so no network activity can occur. -/
theorem construct_empty_urls_fails (ci : CoinInfo) :
    constructBlockBook { urls := [], coinInfo := ci } = (.error BACKEND_NO_URL, []) := rfl

/-- Claim C10: with the fatal-error field unset, `loadTransactions` on the
empty id list succeeds with the empty sequence and performs no backend
transaction lookup. -/
theorem loadTransactions_empty_ok (st : CoordState) (b : Backend)
    (h : st.error = none) : loadTransactions st b [] = (.ok [], []) := by
  simp [loadTransactions, h, promiseAll]

theorem loadTransactions_empty_ok_witness :
    stOk.error = none ∧ loadTransactions stOk bOk [] = (.ok [], []) :=
  ⟨rfl, loadTransactions_empty_ok stOk bOk rfl⟩

/-- Claim C4: `loadCoinInfo` has no fatal-error guard at entry — even with the
fatal-error field set it performs its backend calls and succeeds when the
genesis hash matches a table entry; and when no descriptor is supplied and
the observed genesis-block hash matches no entry of the known-network table,
it fails with the unknown-network error `Failed to load coinInfo <hash>`. -/
theorem loadCoinInfo_not_gated_and_unknown_network (st : CoordState) (e : Err)
    (b : Backend) (table : List (String × CoinInfo)) (info hash : String)
    (ci : CoinInfo) (hinfo : b.getInfo = .ok info)
    (hhash : b.lookupBlockHash0 = .ok hash) :
    (getCoinInfoByHash table hash = some ci →
      loadCoinInfo { st with error := some e } b table none
        = (.ok { st with error := some e, zcash := some ci.zcash },
           [.getInfo, .lookupBlockHash 0])) ∧
    (getCoinInfoByHash table hash = none →
      loadCoinInfo st b table none
        = (.error ("Failed to load coinInfo " ++ hash),
           [.getInfo, .lookupBlockHash 0])) := by
  constructor <;> intro hm <;> simp [loadCoinInfo, hinfo, hhash, hm]

theorem loadCoinInfo_not_gated_and_unknown_network_witness :
    bOk.getInfo = .ok "info" ∧ bOk.lookupBlockHash0 = .ok "genesis" ∧
    getCoinInfoByHash [("genesis", ciBtc)] "genesis" = some ciBtc ∧
    loadCoinInfo { stOk with error := some "boom" } bOk [("genesis", ciBtc)] none
      = (.ok { stOk with error := some "boom", zcash := some ciBtc.zcash },
         [.getInfo, .lookupBlockHash 0]) ∧
    getCoinInfoByHash [] "genesis" = none ∧
    loadCoinInfo stOk bOk [] none
      = (.error ("Failed to load coinInfo " ++ "genesis"),
         [.getInfo, .lookupBlockHash 0]) :=
  ⟨rfl, rfl, by decide,
   (loadCoinInfo_not_gated_and_unknown_network stOk "boom" bOk [("genesis", ciBtc)]
     "info" "genesis" ciBtc rfl rfl).1 (by decide),
   rfl,
   (loadCoinInfo_not_gated_and_unknown_network stOk "boom" bOk [] "info" "genesis"
     ciBtc rfl rfl).2 rfl⟩

/-- Claim C5 is false as stated: `loadCoinInfo` performs no one-time write of
the descriptor — after a successful call with descriptor `ciZec`, a second
call with the conflicting descriptor `ciBtc` also succeeds (it does not fail)
and silently overwrites the stored connection flag. -/
theorem loadCoinInfo_silently_switches_counterexample :
    (loadCoinInfo stOk bOk [] (some ciZec)).1 = .ok { stOk with zcash := some true } ∧
    ciBtc ≠ ciZec ∧
    (loadCoinInfo { stOk with zcash := some true } bOk [] (some ciBtc)).1
      = .ok { stOk with zcash := some false } := by
  refine ⟨rfl, by decide, rfl⟩

/-- Claim C5 (amended): a successful `loadCoinInfo` stores only the
descriptor's zcash flag on the connection; there is no one-time write and no
conflict check — a later call with any (possibly conflicting) descriptor also
succeeds and silently overwrites that flag with the new descriptor's value,
rather than failing. -/
theorem loadCoinInfo_overwrites (st : CoordState) (b : Backend)
    (t1 t2 : List (String × CoinInfo)) (ciA ciB : CoinInfo) (info : String)
    (hinfo : b.getInfo = .ok info) :
    (loadCoinInfo st b t1 (some ciA)).1 = .ok { st with zcash := some ciA.zcash } ∧
    (loadCoinInfo { st with zcash := some ciA.zcash } b t2 (some ciB)).1
      = .ok { st with zcash := some ciB.zcash } := by
  constructor <;> simp [loadCoinInfo, hinfo]

theorem loadCoinInfo_overwrites_witness :
    bOk.getInfo = .ok "info" ∧
    (loadCoinInfo stOk bOk [] (some ciZec)).1 = .ok { stOk with zcash := some ciZec.zcash } ∧
    (loadCoinInfo { stOk with zcash := some ciZec.zcash } bOk [] (some ciBtc)).1
      = .ok { stOk with zcash := some ciBtc.zcash } :=
  ⟨rfl,
   (loadCoinInfo_overwrites stOk bOk [] [] ciZec ciBtc "info" rfl).1,
   (loadCoinInfo_overwrites stOk bOk [] [] ciZec ciBtc "info" rfl).2⟩

/-- Claim C6 is false as stated: a discovery session started by
`loadAccountInfo` attaches a disposer for itself to the backend error
channel, and when the session ends (the source only disposes the progress
stream) that subscription is still attached — it is never removed. -/
theorem session_subscription_not_removed_counterexample :
    loadAccountInfoStart stOk "xpub" none ciBtc
      = .ok (stAfterStart,
             { data := none, xpub := "xpub", network := "bitcoin"
               segwit := "p2sh", cashAddr := false }) ∧
    (loadAccountInfoFinish stAfterStart 0).errorHandlers
      = [.setError, .sessionDispose 0] ∧
    Handler.sessionDispose 0 ∈ (loadAccountInfoFinish stAfterStart 0).errorHandlers := by
  refine ⟨rfl, rfl, by decide⟩

/-- Claim C6 (amended): the backend-error-channel subscription created for a
discovery session is never removed — after the session ends, its handler is
still attached to the error channel (session end disposes only the progress
stream and leaves the handler list unchanged); the leaked handler disposes
only its own, already-settled session, whose outcome a later dispose can no
longer change. -/
theorem session_subscription_leaks (st : CoordState) (xpub : String)
    (data : Option AccountInfo) (ci : CoinInfo) (st2 : CoordState)
    (p : DiscoverParams) (sid : Nat)
    (h : loadAccountInfoStart st xpub data ci = .ok (st2, p)) :
    Handler.sessionDispose st.nextSession
      ∈ (loadAccountInfoFinish st2 st.nextSession).errorHandlers ∧
    (loadAccountInfoFinish st2 sid).errorHandlers = st2.errorHandlers ∧
    (∀ o e2, sessionStep (some o) (SessionEvent.backendError e2) = some o) := by
  refine ⟨?_, rfl, fun o e2 => rfl⟩
  cases hst : st.error with
  | some e => simp [loadAccountInfoStart, hst] at h
  | none =>
    simp only [loadAccountInfoStart, hst, Except.ok.injEq, Prod.mk.injEq] at h
    obtain ⟨h2, -⟩ := h
    subst h2
    simp [loadAccountInfoFinish, List.mem_append]

theorem session_subscription_leaks_witness :
    Handler.sessionDispose 0 ∈ (loadAccountInfoFinish stAfterStart 0).errorHandlers :=
  (session_subscription_leaks stOk "xpub" none ciBtc stAfterStart
    { data := none, xpub := "xpub", network := "bitcoin"
      segwit := "p2sh", cashAddr := false } 0 rfl).1

/-- Claim C7: both `loadAccountInfo` and `monitorAccountActivity` start the
discovery engine with segwit mode "p2sh" exactly when the descriptor supports
segwit and "off" otherwise, and with the special-prefix flag true exactly
when the descriptor carries a non-empty alternate-address prefix; the two
operations derive identical parameters from the same descriptor. -/
theorem discovery_params_derivation (st : CoordState) (xpub : String)
    (data : Option AccountInfo) (snap : AccountInfo) (ci : CoinInfo)
    (st1 st2 : CoordState) (p : DiscoverParams) (q : MonitorParams)
    (h1 : loadAccountInfoStart st xpub data ci = .ok (st1, p))
    (h2 : monitorAccountActivity st xpub snap ci = .ok (st2, q)) :
    (p.segwit = "p2sh" ↔ ci.segwit = true) ∧
    (p.segwit = "off" ↔ ci.segwit = false) ∧
    (p.cashAddr = true ↔ ∃ s, ci.cashAddr = some s ∧ s ≠ "") ∧
    q.segwit = p.segwit ∧ q.cashAddr = p.cashAddr := by
  cases hst : st.error with
  | some e => simp [loadAccountInfoStart, hst] at h1
  | none =>
    simp only [loadAccountInfoStart, hst, Except.ok.injEq, Prod.mk.injEq] at h1
    simp only [monitorAccountActivity, hst, Except.ok.injEq, Prod.mk.injEq] at h2
    obtain ⟨-, hp⟩ := h1
    obtain ⟨-, hq⟩ := h2
    subst hp
    subst hq
    refine ⟨?_, ?_, ?_, rfl, rfl⟩
    · cases hsw : ci.segwit <;> simp
    · cases hsw : ci.segwit <;> simp
    · cases hca : ci.cashAddr with
      | none => simp [jsTruthyStr]
      | some s => simp [jsTruthyStr]

/-- Coordinator state after `loadAccountInfoStart` ran once on `stOk` for a
descriptor (session handler attached, progress stream open). -/
def stAfterStartBch : CoordState :=
  { urls := ["https://backend"], error := none,
    errorHandlers := [.setError, .sessionDispose 0],
    progressStreams := [0], nextSession := 1, zcash := none }

/-- Coordinator state after `monitorAccountActivity` ran once on `stOk`
(stream handler attached). -/
def stAfterMonitor : CoordState :=
  { urls := ["https://backend"], error := none,
    errorHandlers := [.setError, .streamDispose 0],
    progressStreams := [], nextSession := 1, zcash := none }

/-- Discovery parameters produced for the `ciBch` descriptor. -/
def pBch : DiscoverParams :=
  { data := none, xpub := "xpub", network := "bcash", segwit := "off", cashAddr := true }

/-- Monitoring parameters produced for the `ciBch` descriptor. -/
def qBch : MonitorParams :=
  { data := "snap", xpub := "xpub", network := "bcash", segwit := "off", cashAddr := true }

theorem discovery_params_derivation_witness :
    loadAccountInfoStart stOk "xpub" none ciBch = .ok (stAfterStartBch, pBch) ∧
    monitorAccountActivity stOk "xpub" "snap" ciBch = .ok (stAfterMonitor, qBch) ∧
    qBch.segwit = pBch.segwit ∧ qBch.cashAddr = pBch.cashAddr := by
  have h := discovery_params_derivation stOk "xpub" none "snap" ciBch
    stAfterStartBch stAfterMonitor pBch qBch rfl rfl
  exact ⟨rfl, rfl, h.2.2.2.1, h.2.2.2.2⟩

/-! ### Batch-fetch lemmas -/

theorem promiseAll_ok_all (ps : List (Except Err BitcoinJsTransaction × List BackendCall))
    (l : List BitcoinJsTransaction) (h : (promiseAll ps).1 = .ok l) :
    l.length = ps.length ∧ ∀ p ∈ ps, exceptOk p.1 = true := by
  induction ps generalizing l with
  | nil =>
    simp only [promiseAll, Except.ok.injEq] at h
    subst h
    simp
  | cons hd tl ih =>
    obtain ⟨r, cs⟩ := hd
    rcases hpt : promiseAll tl with ⟨rs, css⟩
    cases r with
    | error e => simp [promiseAll, hpt] at h
    | ok v =>
      cases rs with
      | error e => simp [promiseAll, hpt] at h
      | ok vs =>
        simp only [promiseAll, hpt, Except.ok.injEq] at h
        subst h
        have hr : (promiseAll tl).1 = .ok vs := by rw [hpt]
        obtain ⟨hlen, hall⟩ := ih vs hr
        refine ⟨by simp [hlen], ?_⟩
        intro p hp
        rcases List.mem_cons.mp hp with h1 | h2
        · subst h1; rfl
        · exact hall p h2

theorem promiseAll_error_of_mem
    (ps : List (Except Err BitcoinJsTransaction × List BackendCall))
    (p : Except Err BitcoinJsTransaction × List BackendCall)
    (hp : p ∈ ps) (he : exceptOk p.1 = false) :
    exceptOk (promiseAll ps).1 = false := by
  induction ps with
  | nil => cases hp
  | cons hd tl ih =>
    rcases List.mem_cons.mp hp with h1 | h2
    · subst h1
      obtain ⟨r, cs⟩ := p
      cases r with
      | ok v => simp [exceptOk] at he
      | error e =>
        rcases hpt : promiseAll tl with ⟨rs, css⟩
        simp [promiseAll, hpt, exceptOk]
    · obtain ⟨r, cs⟩ := hd
      rcases hpt : promiseAll tl with ⟨rs, css⟩
      have htl := ih h2
      rw [hpt] at htl
      cases r with
      | error e => simp [promiseAll, hpt, exceptOk]
      | ok v =>
        cases rs with
        | ok vs => simp [exceptOk] at htl
        | error e => simp [promiseAll, hpt, exceptOk]

/-- Claim C8: with the fatal-error field unset, `loadTransactions` fetches
each id independently and fails as a whole when any single fetch fails; a
successful result always has one transaction per requested id (every id's
lookup succeeded — no partial sequence omitting a failed id is returned). -/
theorem loadTransactions_fail_fast (st : CoordState) (b : Backend)
    (txs : List String) (h : st.error = none) :
    (∀ id e, id ∈ txs → b.lookupTransaction id = .error e →
      exceptOk (loadTransactions st b txs).1 = false) ∧
    (∀ l, (loadTransactions st b txs).1 = .ok l →
      l.length = txs.length ∧ ∀ id ∈ txs, exceptOk (b.lookupTransaction id) = true) := by
  constructor
  · intro id e hid he
    have hmem : loadTransaction st b id ∈ txs.map (fun i => loadTransaction st b i) :=
      List.mem_map_of_mem _ hid
    have hf : exceptOk (loadTransaction st b id).1 = false := by
      simp [loadTransaction, h, he, exceptOk]
    have hres := promiseAll_error_of_mem _ _ hmem hf
    simpa [loadTransactions, h] using hres
  · intro l hl
    simp only [loadTransactions, h] at hl
    obtain ⟨hlen, hall⟩ := promiseAll_ok_all _ l hl
    refine ⟨by simpa using hlen, ?_⟩
    intro id hid
    have hok := hall _ (List.mem_map_of_mem (fun i => loadTransaction st b i) hid)
    cases hr : b.lookupTransaction id with
    | error e => simp [loadTransaction, h, hr, exceptOk] at hok
    | ok tx => simp [exceptOk]

theorem loadTransactions_fail_fast_witness :
    stOk.error = none ∧
    bOk.lookupTransaction "bad" = .error "tx lookup failed" ∧
    exceptOk (loadTransactions stOk bOk ["id1", "bad", "id3"]).1 = false :=
  ⟨rfl, rfl,
   (loadTransactions_fail_fast stOk bOk ["id1", "bad", "id3"] rfl).1
     "bad" "tx lookup failed" (by simp) rfl⟩

/-! ### Session lifecycle lemmas -/

theorem foldl_sessionStep_absorb (events : List SessionEvent) (o : SessionOutcome) :
    events.foldl sessionStep (some o) = some o := by
  induction events with
  | nil => rfl
  | cons ev tl ih =>
    have hstep : sessionStep (some o) ev = some o := by cases ev <;> rfl
    rw [List.foldl_cons, hstep]
    exact ih

theorem runSession_of_no_complete (pre : List SessionEvent)
    (h : ∀ ev ∈ pre, ev.isComplete = false) :
    pre.foldl sessionStep none = none ∨
    ∃ e, pre.foldl sessionStep none = some (.failure e) := by
  cases pre with
  | nil => exact Or.inl rfl
  | cons ev tl =>
    have hev := h ev (List.mem_cons_self ev tl)
    right
    cases ev with
    | complete info => simp [SessionEvent.isComplete] at hev
    | backendError e =>
      exact ⟨e, by rw [List.foldl_cons]; exact foldl_sessionStep_absorb tl _⟩
    | userDispose =>
      exact ⟨"Interrupted by user",
        by rw [List.foldl_cons]; exact foldl_sessionStep_absorb tl _⟩

/-- Claim C9: if the backend error channel delivers an error while a
discovery session is still open (no completion occurred before it), the
session's outcome is never a success — the attached handler disposes the
session with that error; and a completion delivered strictly before any
other event settles the session successfully, which later error deliveries
can no longer change (tie-break: earlier completion wins). -/
theorem session_backend_error_no_success (pre post : List SessionEvent) (e : Err)
    (h : ∀ ev ∈ pre, ev.isComplete = false) :
    (∀ info, runSession (pre ++ SessionEvent.backendError e :: post)
      ≠ some (SessionOutcome.success info)) ∧
    (∀ info rest, runSession (SessionEvent.complete info :: rest)
      = some (SessionOutcome.success info)) := by
  constructor
  · intro info hcontra
    unfold runSession at hcontra
    rw [List.foldl_append, List.foldl_cons] at hcontra
    rcases runSession_of_no_complete pre h with h0 | ⟨e2, h2⟩
    · rw [h0] at hcontra
      have habs := foldl_sessionStep_absorb post (SessionOutcome.failure e)
      rw [show sessionStep none (SessionEvent.backendError e)
            = some (SessionOutcome.failure e) from rfl, habs] at hcontra
      exact SessionOutcome.noConfusion (Option.some.inj hcontra)
    · rw [h2] at hcontra
      have habs := foldl_sessionStep_absorb post (SessionOutcome.failure e2)
      rw [show sessionStep (some (SessionOutcome.failure e2)) (SessionEvent.backendError e)
            = some (SessionOutcome.failure e2) from rfl, habs] at hcontra
      exact SessionOutcome.noConfusion (Option.some.inj hcontra)
  · intro info rest
    unfold runSession
    rw [List.foldl_cons]
    exact foldl_sessionStep_absorb rest _

theorem session_backend_error_no_success_witness :
    runSession [SessionEvent.backendError "boom"]
      ≠ some (SessionOutcome.success "acct") ∧
    runSession [SessionEvent.complete "acct", SessionEvent.backendError "boom"]
      = some (SessionOutcome.success "acct") := by
  have h := session_backend_error_no_success [] [] "boom" (by simp)
  exact ⟨h.1 "acct", h.2 "acct" [SessionEvent.backendError "boom"]⟩

end BlockBook
